import Mathlib

/-!
Verification development for the catbox cache policy engine
(typed-typings/npm-catbox). The repository ships declaration files
(`lib/client.d.ts`, `lib/policy.d.ts`); the behaviour they declare is
described by the accompanying specification. The definitions below are a
shallow embedding of that behaviour: timestamps and durations are integer
milliseconds, the per-id bookkeeping tables are association lists, and the
asynchronous callback machinery is rendered as explicit state transitions
(one synchronous `get` phase plus explicit timer/completion events).
-/

namespace Catbox

/-- Association-list lookup keyed by decidable equality. -/
def alGet {κ α : Type} [DecidableEq κ] (k : κ) : List (κ × α) → Option α
  | [] => none
  | (k', v) :: rest => if k' = k then some v else alGet k rest

/-- Association-list insert-or-replace. -/
def alSet {κ α : Type} [DecidableEq κ] (k : κ) (v : α) (l : List (κ × α)) :
    List (κ × α) :=
  (k, v) :: l.filter (fun p => decide (p.1 ≠ k))

/-- Association-list removal of a key. -/
def alRemove {κ α : Type} [DecidableEq κ] (k : κ) (l : List (κ × α)) :
    List (κ × α) :=
  l.filter (fun p => decide (p.1 ≠ k))

theorem alGet_alSet_same {κ α : Type} [DecidableEq κ] (k : κ) (v : α)
    (l : List (κ × α)) : alGet k (alSet k v l) = some v := by
  simp [alGet, alSet]

theorem alGet_filter_ne {κ α : Type} [DecidableEq κ] (k : κ)
    (l : List (κ × α)) :
    alGet k (l.filter (fun p => decide (p.1 ≠ k))) = none := by
  induction l with
  | nil => simp [alGet]
  | cons p rest ih =>
    by_cases h : p.1 = k
    · simpa [List.filter, h] using ih
    · simpa [List.filter, h, alGet] using ih

theorem alGet_alRemove_same {κ α : Type} [DecidableEq κ] (k : κ)
    (l : List (κ × α)) : alGet k (alRemove k l) = none := by
  simpa [alRemove] using alGet_filter_ne k l

/-- A policy-level cache key: a segment plus an item id (`client.d.ts`,
`Client.Key`). -/
structure CacheKey where
  segment : String
  id : String
deriving DecidableEq, Repr

/-- A record as read back from the cache facade: the value, the storage
timestamp and the write-time ttl duration (`Client.Result` /
`Policy.Cached` without the derived staleness flag). -/
structure StoredRecord (T : Type) where
  item : T
  storedAt : Int
  ttl : Int
deriving DecidableEq, Repr

/-- The error taxonomy of the specification: backend read/write/drop
failures, generator failures (tagged with a code to tell instances apart),
the synthetic generation-timeout error, and configuration-time validation
failure. -/
inductive CacheError where
  | readError
  | writeError
  | dropError
  | generateError (code : Nat)
  | generateTimeoutError
  | validationError
deriving DecidableEq, Repr

/-- Expiration rule: unset, relative (`expiresIn` milliseconds after
storage), or a daily wall-clock cutoff (`expiresAt "HH:MM"`, here the
number of minutes after local midnight). At most one of the two timed
forms is ever active, which the single constructor choice enforces. -/
inductive ExpirationRule where
  | unset
  | relativeIn (d : Int)
  | dailyAt (minutes : Int)
deriving DecidableEq, Repr

/-- Staleness rule: a fixed duration or a function of
`(storedAt, remainingTtl)`. -/
inductive StaleIn where
  | fixed (d : Int)
  | dyn (f : Int → Int → Int)

/-- Evaluate a staleness rule at a stored timestamp and remaining ttl. -/
def StaleIn.eval : StaleIn → Int → Int → Int
  | .fixed d, _, _ => d
  | .dyn f, storedAt, remaining => f storedAt remaining

/-- The `generateTimeout` option: absent, explicitly disabled (`false` in
the source options), or a duration in milliseconds. -/
inductive GenerateTimeoutSetting where
  | unset
  | disabled
  | after (ms : Int)
deriving DecidableEq, Repr

/-- The active, already-validated policy configuration (`PolicyRules` in
the specification). -/
structure PolicyRules where
  expiration : ExpirationRule
  staleIn : Option StaleIn
  generateFunc : Bool
  staleTimeout : Option Int
  generateTimeout : GenerateTimeoutSetting
  dropOnError : Bool
  generateOnReadError : Bool
  generateIgnoreWriteError : Bool
  pendingGenerateTimeout : Int

/-- Milliseconds in one day, for the daily-cutoff expiration mode. -/
def msPerDay : Int := 86400000

/-- Modelled from the spec: the `expiresAt` cutoff computation of
`lib/policy.js`, which is not under `src/` (only the type declarations
are). The next occurrence of the configured wall-clock time at or after
`storedAt`; if the stored moment is already past the cutoff on its
calendar day, the cutoff moves to the next day. -/
def nextDailyCutoff (minutes storedAt : Int) : Int :=
  let dayStart := storedAt - storedAt % msPerDay
  let c := dayStart + minutes * 60000
  if storedAt ≤ c then c else c + msPerDay

/-- Modelled from the spec: the expiration-rule ttl evaluation of
`lib/policy.js`, which is not under `src/`. `expiresIn` mode gives
`max 0 (storedAt + expiresIn - now)`; `expiresAt` mode gives the distance
to the daily cutoff, floored at 0. -/
def ruleTtl (rule : ExpirationRule) (storedAt now : Int) : Int :=
  match rule with
  | .unset => 0
  | .relativeIn d => max 0 (storedAt + d - now)
  | .dailyAt m => max 0 (nextDailyCutoff m storedAt - now)

/-- Modelled from the spec: `Policy.ttl(created)` of `lib/policy.js`,
which is not under `src/` — the remaining time-to-live of a record stored
at `storedAt`, per the active expiration rule, at reference time `now`. -/
def Policy.ttl (rules : PolicyRules) (storedAt now : Int) : Int :=
  ruleTtl rules.expiration storedAt now

/-- C4: with only `expiresIn` configured, `Policy.ttl storedAt` at
reference time `now` equals `expiresIn - (now - storedAt)` floored at 0,
which is the same as `max 0 (storedAt + expiresIn - now)`. -/
theorem ttl_expiresIn_formula (r : PolicyRules) (d storedAt now : Int)
    (h : r.expiration = .relativeIn d) :
    Policy.ttl r storedAt now = max 0 (d - (now - storedAt)) ∧
    Policy.ttl r storedAt now = max 0 (storedAt + d - now) := by
  have harg : storedAt + d - now = d - (now - storedAt) := by ring
  simp only [Policy.ttl, ruleTtl, h, harg]
  exact ⟨trivial, trivial⟩

/-- C4 witness: the formula evaluated at a concrete rule set and
timestamps. -/
theorem ttl_expiresIn_formula_witness :
    Policy.ttl
        { expiration := .relativeIn 1000, staleIn := none,
          generateFunc := false, staleTimeout := none,
          generateTimeout := .unset, dropOnError := true,
          generateOnReadError := true, generateIgnoreWriteError := true,
          pendingGenerateTimeout := 0 } 50 400
      = max 0 (1000 - (400 - 50)) :=
  (ttl_expiresIn_formula
      { expiration := .relativeIn 1000, staleIn := none,
        generateFunc := false, staleTimeout := none,
        generateTimeout := .unset, dropOnError := true,
        generateOnReadError := true, generateIgnoreWriteError := true,
        pendingGenerateTimeout := 0 } 1000 50 400 rfl).1

/-- The policy statistics counters (`Policy.Stats` in `policy.d.ts`). -/
structure Stats where
  sets : Nat
  gets : Nat
  hits : Nat
  stales : Nat
  generates : Nat
  errors : Nat
deriving DecidableEq, Repr

/-- What one caller of `Policy.get` is resolved with: an optional value,
its staleness flag, and an optional error travelling alongside (the
`(err, value, cached)` triple of the callback in `policy.d.ts`). -/
structure Resolution (T : Type) where
  value : Option T
  isStale : Bool
  error : Option CacheError
deriving DecidableEq, Repr

/-- One caller attached to an in-flight generation: its stale-fallback
record, if any existed when it attached, and its resolution once one of
the timers or the completion delivered a result. -/
structure Waiter (T : Type) where
  fallback : Option (StoredRecord T)
  resolved : Option (Resolution T)
deriving DecidableEq, Repr

/-- The per-id transient bookkeeping entry for an in-flight generation:
its start time and the registry of pending waiters. -/
structure GenerationState (T : Type) where
  startedAt : Int
  waiters : List (Waiter T)
deriving DecidableEq, Repr

/-- The whole policy-engine state: the backend cache contents keyed by id
(within this policy segment), the per-id GenerationState registry, the
per-id generation-start cool-down markers, the statistics, and the active
rules. -/
structure PolicyState (T : Type) where
  cache : List (String × StoredRecord T)
  gen : List (String × GenerationState T)
  pending : List (String × Int)
  stats : Stats
  rules : PolicyRules

/-- Remaining time-to-live of a stored record at reference time `now`,
from its write-time ttl duration. -/
def recordRemainingTtl {T : Type} (r : StoredRecord T) (now : Int) : Int :=
  max 0 (r.storedAt + r.ttl - now)

/-- Modelled from the spec: the staleness evaluation of `lib/policy.js`,
which is not under `src/`. A record is stale when `now` has reached
`storedAt + staleIn(storedAt, remainingTtl)`; with no staleness rule a
record is never stale. -/
def recordIsStale {T : Type} (rules : PolicyRules) (r : StoredRecord T)
    (now : Int) : Bool :=
  match rules.staleIn with
  | none => false
  | some s =>
      decide (r.storedAt + s.eval r.storedAt (recordRemainingTtl r now) ≤ now)

/-- Modelled from the spec: the `pendingGenerateTimeout` cool-down check
of `lib/policy.js`, which is not under `src/`. The cool-down is active
when the option is nonzero, a marker for this id exists, and less than the
configured duration has elapsed since the marked generation start. -/
def cooldownActive (rules : PolicyRules) (pend : List (String × Int))
    (id : String) (now : Int) : Bool :=
  if rules.pendingGenerateTimeout = 0 then false
  else
    match alGet id pend with
    | some s => decide (now < s + rules.pendingGenerateTimeout)
    | none => false

/-- The synchronous outcome of one `Policy.get` call: either it resolved
immediately, or the caller is now a waiter on an in-flight generation. -/
inductive GetOutcome (T : Type) where
  | resolvedNow (res : Resolution T)
  | waiting
deriving DecidableEq, Repr

/-- Modelled from the spec: the miss/stale fallthrough of `Policy.get` in
`lib/policy.js`, which is not under `src/` (steps 4, 5 and 9 of the get
state machine). With no generator the stale or absent result is returned
as-is; with a generator the caller attaches to an existing GenerationState
as a waiter, or — unless the per-id cool-down is active — creates a fresh
GenerationState, incrementing `generates` once and `stales` once when the
burst was triggered by a stale record, and leaves a cool-down marker at
the generation start time. -/
def generatePhase {T : Type} (st : PolicyState T) (id : String) (now : Int)
    (fallback : Option (StoredRecord T)) (wasStale : Bool) :
    GetOutcome T × PolicyState T :=
  if st.rules.generateFunc = false then
    match fallback with
    | some r => (.resolvedNow ⟨some r.item, true, none⟩, st)
    | none => (.resolvedNow ⟨none, false, none⟩, st)
  else
    match alGet id st.gen with
    | some g =>
        (.waiting,
         { st with
            gen := alSet id
              { g with waiters := g.waiters ++ [⟨fallback, none⟩] } st.gen })
    | none =>
        if cooldownActive st.rules st.pending id now then
          match fallback with
          | some r => (.resolvedNow ⟨some r.item, true, none⟩, st)
          | none => (.resolvedNow ⟨none, false, none⟩, st)
        else
          let stats1 :=
            if wasStale then { st.stats with stales := st.stats.stales + 1 }
            else st.stats
          (.waiting,
           { st with
              stats := { stats1 with generates := stats1.generates + 1 },
              gen := alSet id ⟨now, [⟨fallback, none⟩]⟩ st.gen,
              pending := alSet id now st.pending })

/-- Modelled from the spec: the synchronous phase of `Policy.get` in
`lib/policy.js`, which is not under `src/` (steps 1 to 5 of the get state
machine). Increments `gets`; on a read failure increments `errors` and
either surfaces the read error (when `generateOnReadError` is false and a
generator is configured) or proceeds as on a miss; on a fresh hit returns
the record; an expired record is treated identically to a miss; a stale
hit increments `hits` and enters the generate fallthrough with the stale
record as fallback. -/
def getStep {T : Type} (st : PolicyState T) (id : String) (now : Int)
    (readFails : Bool) : GetOutcome T × PolicyState T :=
  let st1 := { st with stats := { st.stats with gets := st.stats.gets + 1 } }
  if readFails then
    let st2 :=
      { st1 with stats := { st1.stats with errors := st1.stats.errors + 1 } }
    if st2.rules.generateOnReadError = false ∧ st2.rules.generateFunc then
      (.resolvedNow ⟨none, false, some .readError⟩, st2)
    else
      generatePhase st2 id now none false
  else
    match alGet id st.cache with
    | none => generatePhase st1 id now none false
    | some r =>
        if recordRemainingTtl r now ≤ 0 then
          generatePhase st1 id now none false
        else
          let st2 :=
            { st1 with
               stats := { st1.stats with hits := st1.stats.hits + 1 } }
          if recordIsStale st2.rules r now then
            generatePhase st2 id now (some r) true
          else
            (.resolvedNow ⟨some r.item, false, none⟩, st2)

/-- A burst of `n` concurrent `Policy.get` calls for the same id, all
interleaved at the same reference time: the synchronous phases run one
after another (waiter registration is atomic per the concurrency model). -/
def getBurst {T : Type} (st : PolicyState T) (id : String) (now : Int) :
    Nat → PolicyState T
  | 0 => st
  | n + 1 => getBurst (getStep st id now false).2 id now n

/-- Resolve every still-unresolved waiter with `res`: the list of
deliveries made now (one per previously unresolved waiter) together with
the updated waiter registry. -/
def resolveAll {T : Type} (res : Resolution T) (ws : List (Waiter T)) :
    List (Resolution T) × List (Waiter T) :=
  ((ws.filter (fun w => w.resolved.isNone)).map (fun _ => res),
   ws.map (fun w =>
     if w.resolved.isNone then { w with resolved := some res } else w))

/-- Modelled from the spec: the `staleTimeout` firing of `lib/policy.js`,
which is not under `src/` (step 6 of the get state machine). When the
timer of waiter `i` fires while that waiter is still unresolved and a
stale fallback exists, the waiter is resolved with the stale value marked
stale; the GenerationState is left in place, the generation keeps
running. -/
def staleTimeoutFire {T : Type} (st : PolicyState T) (id : String)
    (i : Nat) : Option (Resolution T) × PolicyState T :=
  match alGet id st.gen with
  | none => (none, st)
  | some g =>
      match g.waiters.get? i with
      | none => (none, st)
      | some w =>
          if w.resolved.isNone then
            match w.fallback with
            | some r =>
                let res : Resolution T := ⟨some r.item, true, none⟩
                (some res,
                 { st with
                    gen := alSet id
                      { g with
                         waiters := g.waiters.set i
                           { w with resolved := some res } } st.gen })
            | none => (none, st)
          else (none, st)

/-- Modelled from the spec: the `generateTimeout` firing of
`lib/policy.js`, which is not under `src/` (step 6 of the get state
machine). Every waiter still unresolved is resolved with a
GenerateTimeoutError and `errors` is incremented; the generation itself is
not cancelled, so the GenerationState stays until completion. -/
def generateTimeoutFire {T : Type} (st : PolicyState T) (id : String) :
    List (Resolution T) × PolicyState T :=
  match alGet id st.gen with
  | none => ([], st)
  | some g =>
      let out := resolveAll ⟨none, false, some .generateTimeoutError⟩ g.waiters
      (out.1,
       { st with
          gen := alSet id { g with waiters := out.2 } st.gen,
          stats := { st.stats with errors := st.stats.errors + 1 } })

/-- The ttl a generation result is stored with: the generator-declared ttl
when positive, else the ttl computed from the active expiration rule (a
generator ttl of 0 means: use the configured rule). -/
def effectiveWriteTtl (rules : PolicyRules) (gttl now : Int) : Int :=
  if 0 < gttl then gttl else ruleTtl rules.expiration now now

/-- Modelled from the spec: the successful generator-completion path of
`lib/policy.js`, which is not under `src/` (step 7 of the get state
machine). The fresh value is stored through the cache facade (on write
failure `errors` is incremented and the cache keeps its prior content);
every waiter not already resolved is resolved with the fresh value — with
the write error travelling alongside when `generateIgnoreWriteError` is
false and the store failed — and the GenerationState is destroyed. -/
def generateSuccess {T : Type} (st : PolicyState T) (id : String) (v : T)
    (gttl now : Int) (writeFails : Bool) :
    List (Resolution T) × PolicyState T :=
  let record : StoredRecord T := ⟨v, now, effectiveWriteTtl st.rules gttl now⟩
  let st1 :=
    if writeFails then
      { st with stats := { st.stats with errors := st.stats.errors + 1 } }
    else
      { st with
         cache := alSet id record st.cache,
         stats := { st.stats with sets := st.stats.sets + 1 } }
  match alGet id st1.gen with
  | none => ([], st1)
  | some g =>
      let res : Resolution T :=
        if writeFails ∧ st1.rules.generateIgnoreWriteError = false then
          ⟨some v, false, some .writeError⟩
        else ⟨some v, false, none⟩
      ((resolveAll res g.waiters).1, { st1 with gen := alRemove id st1.gen })

/-- Modelled from the spec: the generator-error completion path of
`lib/policy.js`, which is not under `src/` (step 8 of the get state
machine). `errors` is incremented; when `dropOnError` is set the cached
record for the id is dropped best-effort (a drop failure leaves the record
but changes nothing else); every waiter not already resolved is resolved
with the generator's error; the GenerationState is destroyed. -/
def generateErrorEvent {T : Type} (st : PolicyState T) (id : String)
    (ecode : Nat) (dropFails : Bool) :
    List (Resolution T) × PolicyState T :=
  let st1 :=
    { st with stats := { st.stats with errors := st.stats.errors + 1 } }
  let st2 :=
    if st1.rules.dropOnError ∧ dropFails = false then
      { st1 with cache := alRemove id st1.cache }
    else st1
  match alGet id st2.gen with
  | none => ([], st2)
  | some g =>
      ((resolveAll ⟨none, false, some (.generateError ecode)⟩ g.waiters).1,
       { st2 with gen := alRemove id st2.gen })

/-- A state in which every `get` call for `id` reaches the generate
fallthrough with an attachable configuration: any cached record for `id`
is unexpired and stale (a missing record trivially qualifies). -/
def attachScenario {T : Type} (st : PolicyState T) (id : String)
    (now : Int) : Prop :=
  ∀ r, alGet id st.cache = some r →
    0 < recordRemainingTtl r now ∧ recordIsStale st.rules r now = true

theorem getStep_attach {T : Type} (st : PolicyState T) (id : String)
    (now : Int) (g : GenerationState T) (hsc : attachScenario st id now)
    (hg : alGet id st.gen = some g)
    (hf : st.rules.generateFunc = true) :
    (getStep st id now false).2.stats.generates = st.stats.generates ∧
    (getStep st id now false).2.stats.stales = st.stats.stales ∧
    (getStep st id now false).2.cache = st.cache ∧
    (getStep st id now false).2.rules = st.rules ∧
    ∃ fb, alGet id (getStep st id now false).2.gen
      = some { g with waiters := g.waiters ++ [⟨fb, none⟩] } := by
  cases hcache : alGet id st.cache with
  | none =>
    refine ⟨?_, ?_, ?_, ?_, none, ?_⟩ <;>
      simp [getStep, hcache, generatePhase, hf, hg, alGet_alSet_same]
  | some r =>
    obtain ⟨hfresh, hstale⟩ := hsc r hcache
    have hexp : ¬ recordRemainingTtl r now ≤ 0 := by omega
    refine ⟨?_, ?_, ?_, ?_, some r, ?_⟩ <;>
      simp [getStep, hcache, hexp, hstale, generatePhase, hf, hg,
        alGet_alSet_same]

theorem getBurst_attach_steps {T : Type} (id : String) (now : Int)
    (n : Nat) :
    ∀ (st : PolicyState T) (g : GenerationState T),
      attachScenario st id now → alGet id st.gen = some g →
      st.rules.generateFunc = true →
      (getBurst st id now n).stats.generates = st.stats.generates ∧
      (getBurst st id now n).stats.stales = st.stats.stales ∧
      ∃ g', alGet id (getBurst st id now n).gen = some g' ∧
        g'.waiters.length = g.waiters.length + n := by
  induction n with
  | zero =>
    intro st g hsc hg _
    exact ⟨rfl, rfl, g, hg, rfl⟩
  | succ m ih =>
    intro st g hsc hg hf
    obtain ⟨h1, h2, h3, h4, fb, h5⟩ := getStep_attach st id now g hsc hg hf
    have hsc' : attachScenario (getStep st id now false).2 id now := by
      intro r hr
      rw [h3] at hr
      rw [h4]
      exact hsc r hr
    have hf' : (getStep st id now false).2.rules.generateFunc = true := by
      rw [h4]; exact hf
    obtain ⟨k1, k2, g', k3, k4⟩ := ih (getStep st id now false).2 _ hsc' h5 hf'
    refine ⟨?_, ?_, g', ?_, ?_⟩
    · show (getBurst (getStep st id now false).2 id now m).stats.generates = _
      rw [k1, h1]
    · show (getBurst (getStep st id now false).2 id now m).stats.stales = _
      rw [k2, h2]
    · exact k3
    · rw [k4]
      simp [List.length_append]
      omega

/-- A sample generator-configured rule set for concrete evaluations. -/
def sampleRulesGen : PolicyRules :=
  { expiration := .relativeIn 1000, staleIn := some (.fixed 500),
    generateFunc := true, staleTimeout := some 100,
    generateTimeout := .after 200, dropOnError := true,
    generateOnReadError := true, generateIgnoreWriteError := true,
    pendingGenerateTimeout := 0 }

/-- All-zero statistics. -/
def zeroStats : Stats := ⟨0, 0, 0, 0, 0, 0⟩

/-- A sample policy state with an empty cache. -/
def sampleEmptyState : PolicyState Nat :=
  { cache := [], gen := [], pending := [], stats := zeroStats,
    rules := sampleRulesGen }

/-- A sample policy state holding one record for id `x`, stored at time 0
with a one-second ttl, stale from time 500 on. -/
def sampleStaleState : PolicyState Nat :=
  { cache := [("x", ⟨7, 0, 1000⟩)], gen := [], pending := [],
    stats := zeroStats, rules := sampleRulesGen }

theorem getStep_miss_create {T : Type} (st : PolicyState T) (id : String)
    (now : Int) (hc : alGet id st.cache = none)
    (hg : alGet id st.gen = none) (hp : alGet id st.pending = none)
    (hf : st.rules.generateFunc = true) :
    (getStep st id now false).2.stats.generates = st.stats.generates + 1 ∧
    (getStep st id now false).2.stats.stales = st.stats.stales ∧
    (getStep st id now false).2.cache = st.cache ∧
    (getStep st id now false).2.rules = st.rules ∧
    alGet id (getStep st id now false).2.gen
      = some ⟨now, [⟨none, none⟩]⟩ := by
  refine ⟨?_, ?_, ?_, ?_, ?_⟩ <;>
    simp [getStep, hc, generatePhase, hf, hg, cooldownActive, hp,
      alGet_alSet_same]

theorem getStep_stale_create {T : Type} (st : PolicyState T) (id : String)
    (now : Int) (r : StoredRecord T) (hc : alGet id st.cache = some r)
    (hfresh : 0 < recordRemainingTtl r now)
    (hstale : recordIsStale st.rules r now = true)
    (hg : alGet id st.gen = none) (hp : alGet id st.pending = none)
    (hf : st.rules.generateFunc = true) :
    (getStep st id now false).2.stats.generates = st.stats.generates + 1 ∧
    (getStep st id now false).2.stats.stales = st.stats.stales + 1 ∧
    (getStep st id now false).2.cache = st.cache ∧
    (getStep st id now false).2.rules = st.rules ∧
    alGet id (getStep st id now false).2.gen
      = some ⟨now, [⟨some r, none⟩]⟩ := by
  have hexp : ¬ recordRemainingTtl r now ≤ 0 := by omega
  refine ⟨?_, ?_, ?_, ?_, ?_⟩ <;>
    simp [getStep, hc, hexp, hstale, generatePhase, hf, hg, cooldownActive,
      hp, alGet_alSet_same]

/-- C1: for an uncached id with a generator configured and no in-flight
generation or cool-down, a burst of `n ≥ 1` concurrent `get` calls
performs exactly one generator invocation — `generates` grows by 1, not
`n` — and every one of the `n` callers is attached as a waiter of the one
GenerationState. -/
theorem get_burst_coalesces_to_one_generate {T : Type}
    (st : PolicyState T) (id : String) (now : Int) (n : Nat)
    (hc : alGet id st.cache = none) (hg : alGet id st.gen = none)
    (hp : alGet id st.pending = none)
    (hf : st.rules.generateFunc = true) (hn : 1 ≤ n) :
    (getBurst st id now n).stats.generates = st.stats.generates + 1 ∧
    ∃ g, alGet id (getBurst st id now n).gen = some g ∧
      g.waiters.length = n := by
  obtain ⟨m, rfl⟩ : ∃ m, n = m + 1 := ⟨n - 1, by omega⟩
  obtain ⟨h1, h2, h3, h4, h5⟩ := getStep_miss_create st id now hc hg hp hf
  have hsc' : attachScenario (getStep st id now false).2 id now := by
    intro r hr
    rw [h3, hc] at hr
    cases hr
  have hf' : (getStep st id now false).2.rules.generateFunc = true := by
    rw [h4]; exact hf
  obtain ⟨k1, k2, g', k3, k4⟩ :=
    getBurst_attach_steps id now m (getStep st id now false).2 _ hsc' h5 hf'
  refine ⟨?_, g', k3, ?_⟩
  · show (getBurst (getStep st id now false).2 id now m).stats.generates = _
    rw [k1, h1]
  · simp at k4
    omega

/-- C1 witness: a burst of three `get` calls against an empty cache and a
generator-configured rule set invokes the generator once and registers
three waiters. -/
theorem get_burst_coalesces_to_one_generate_witness :
    (getBurst sampleEmptyState "x" 0 3).stats.generates
        = sampleEmptyState.stats.generates + 1 ∧
    ∃ g, alGet "x" (getBurst sampleEmptyState "x" 0 3).gen = some g ∧
      g.waiters.length = 3 :=
  get_burst_coalesces_to_one_generate sampleEmptyState "x" 0 3 rfl rfl rfl
    rfl (by decide)

/-- C7: for a coalesced generation burst triggered by a stale (unexpired)
cached record, `stales` is incremented exactly once for the whole burst —
by the first queued request — not once per attached caller. -/
theorem stale_burst_increments_stales_once {T : Type}
    (st : PolicyState T) (id : String) (now : Int) (r : StoredRecord T)
    (n : Nat) (hc : alGet id st.cache = some r)
    (hfresh : 0 < recordRemainingTtl r now)
    (hstale : recordIsStale st.rules r now = true)
    (hg : alGet id st.gen = none) (hp : alGet id st.pending = none)
    (hf : st.rules.generateFunc = true) (hn : 1 ≤ n) :
    (getBurst st id now n).stats.stales = st.stats.stales + 1 ∧
    ∃ g, alGet id (getBurst st id now n).gen = some g ∧
      g.waiters.length = n := by
  obtain ⟨m, rfl⟩ : ∃ m, n = m + 1 := ⟨n - 1, by omega⟩
  obtain ⟨h1, h2, h3, h4, h5⟩ :=
    getStep_stale_create st id now r hc hfresh hstale hg hp hf
  have hsc' : attachScenario (getStep st id now false).2 id now := by
    intro r' hr'
    rw [h3, hc] at hr'
    obtain rfl := Option.some.inj hr'
    rw [h4]
    exact ⟨hfresh, hstale⟩
  have hf' : (getStep st id now false).2.rules.generateFunc = true := by
    rw [h4]; exact hf
  obtain ⟨k1, k2, g', k3, k4⟩ :=
    getBurst_attach_steps id now m (getStep st id now false).2 _ hsc' h5 hf'
  refine ⟨?_, g', k3, ?_⟩
  · show (getBurst (getStep st id now false).2 id now m).stats.stales = _
    rw [k2, h2]
  · simp at k4
    omega

/-- C7 witness: three `get` calls against a stale record bump `stales`
from 0 to 1 while registering three waiters. -/
theorem stale_burst_increments_stales_once_witness :
    (getBurst sampleStaleState "x" 600 3).stats.stales
        = sampleStaleState.stats.stales + 1 ∧
    ∃ g, alGet "x" (getBurst sampleStaleState "x" 600 3).gen = some g ∧
      g.waiters.length = 3 :=
  stale_burst_increments_stales_once sampleStaleState "x" 600 ⟨7, 0, 1000⟩
    3 rfl (by decide) (by decide) rfl rfl rfl (by decide)

/-- A sample policy state with one stale record for id `x` and an
in-flight generation for it holding a single unresolved waiter with the
stale record as fallback. -/
def sampleWaitingState : PolicyState Nat :=
  { cache := [("x", ⟨7, 0, 1000⟩)],
    gen := [("x", ⟨600, [⟨some ⟨7, 0, 1000⟩, none⟩]⟩)],
    pending := [("x", 600)], stats := zeroStats, rules := sampleRulesGen }

/-- A sample policy state with no cached record for id `x` and an
in-flight generation for it holding one already-resolved waiter and one
unresolved waiter without fallback. -/
def sampleHungState : PolicyState Nat :=
  { cache := [],
    gen := [("x", ⟨0,
      [⟨none, some ⟨some 3, false, none⟩⟩, ⟨none, none⟩]⟩)],
    pending := [("x", 0)], stats := zeroStats, rules := sampleRulesGen }

/-- C2: when the stale timeout fires for a waiter that is still
unresolved and has a (possibly stale) fallback record, that caller is
resolved with the stale value marked `isStale = true`, the cache is not
touched, and the GenerationState is not torn down — and the generation's
eventual successful completion still stores its value in the cache. -/
theorem staleTimeout_returns_stale_and_keeps_generation {T : Type}
    (st : PolicyState T) (id : String) (i : Nat) (g : GenerationState T)
    (w : Waiter T) (r : StoredRecord T) (h1 : alGet id st.gen = some g)
    (h2 : g.waiters[i]? = some w) (h3 : w.resolved = none)
    (h4 : w.fallback = some r) :
    (staleTimeoutFire st id i).1 = some ⟨some r.item, true, none⟩ ∧
    alGet id (staleTimeoutFire st id i).2.gen
      = some { g with waiters := (g.waiters.set i
          { w with resolved := some ⟨some r.item, true, none⟩ }) } ∧
    (staleTimeoutFire st id i).2.cache = st.cache ∧
    ∀ v gttl later,
      alGet id
          (generateSuccess (staleTimeoutFire st id i).2 id v gttl later
            false).2.cache
        = some ⟨v, later, effectiveWriteTtl st.rules gttl later⟩ := by
  refine ⟨?_, ?_, ?_, ?_⟩ <;>
    simp [staleTimeoutFire, h1, h2, h3, h4, generateSuccess,
      alGet_alSet_same]

/-- C2 witness: the stale timeout fired for the single waiter of the
sample in-flight generation delivers the stale value, keeps the
GenerationState, and a later completion at time 700 stores the fresh
value. -/
theorem staleTimeout_returns_stale_and_keeps_generation_witness :
    (staleTimeoutFire sampleWaitingState "x" 0).1
        = some ⟨some 7, true, none⟩ ∧
    (staleTimeoutFire sampleWaitingState "x" 0).2.cache
        = sampleWaitingState.cache ∧
    alGet "x"
        (generateSuccess (staleTimeoutFire sampleWaitingState "x" 0).2 "x"
          9 800 700 false).2.cache
      = some ⟨9, 700, effectiveWriteTtl sampleWaitingState.rules 800 700⟩ := by
  obtain ⟨a, b, c, d⟩ :=
    staleTimeout_returns_stale_and_keeps_generation sampleWaitingState "x"
      0 ⟨600, [⟨some ⟨7, 0, 1000⟩, none⟩]⟩ ⟨some ⟨7, 0, 1000⟩, none⟩
      ⟨7, 0, 1000⟩ rfl rfl rfl rfl
  exact ⟨a, c, d 9 800 700⟩

/-- The resolution delivered when the generate timeout fires. -/
def timeoutRes (T : Type) : Resolution T :=
  ⟨none, false, some .generateTimeoutError⟩

/-- C3: when the generate timeout fires, every waiter not yet resolved is
resolved with a GenerateTimeoutError (one delivery per unresolved waiter,
already-resolved waiters untouched, all waiters resolved afterwards) and
`errors` is incremented — and the generator's later successful completion
still stores its value in the cache. -/
theorem generateTimeout_resolves_with_timeout_error {T : Type}
    (st : PolicyState T) (id : String) (g : GenerationState T)
    (h1 : alGet id st.gen = some g) :
    (generateTimeoutFire st id).1
      = (g.waiters.filter (fun w => w.resolved.isNone)).map
          (fun _ => timeoutRes T) ∧
    (generateTimeoutFire st id).2.stats.errors = st.stats.errors + 1 ∧
    alGet id (generateTimeoutFire st id).2.gen
      = some { g with waiters := (g.waiters.map (fun w =>
          if w.resolved.isNone then { w with resolved := some (timeoutRes T) }
          else w)) } ∧
    (∀ g' w', alGet id (generateTimeoutFire st id).2.gen = some g' →
      w' ∈ g'.waiters → w'.resolved.isSome = true) ∧
    ∀ v gttl later,
      alGet id
          (generateSuccess (generateTimeoutFire st id).2 id v gttl later
            false).2.cache
        = some ⟨v, later, effectiveWriteTtl st.rules gttl later⟩ := by
  refine ⟨?_, ?_, ?_, ?_, ?_⟩
  · simp [generateTimeoutFire, h1, resolveAll, timeoutRes]
  · simp [generateTimeoutFire, h1]
  · simp [generateTimeoutFire, h1, resolveAll, timeoutRes, alGet_alSet_same]
  · intro g' w' hg' hmem
    simp [generateTimeoutFire, h1, resolveAll, alGet_alSet_same] at hg'
    rw [← hg'] at hmem
    simp only [List.mem_map] at hmem
    obtain ⟨w, _, rfl⟩ := hmem
    cases hw : w.resolved <;> simp [hw]
  · intro v gttl later
    simp [generateTimeoutFire, h1, generateSuccess, alGet_alSet_same]

/-- C3 witness: for the sample hung generation (one resolved waiter, one
unresolved), the generate timeout delivers exactly one
GenerateTimeoutError, bumps `errors` to 1, and a later completion at time
500 still populates the cache. -/
theorem generateTimeout_resolves_with_timeout_error_witness :
    (generateTimeoutFire sampleHungState "x").1
        = [⟨none, false, some .generateTimeoutError⟩] ∧
    (generateTimeoutFire sampleHungState "x").2.stats.errors
        = sampleHungState.stats.errors + 1 ∧
    alGet "x"
        (generateSuccess (generateTimeoutFire sampleHungState "x").2 "x"
          5 0 500 false).2.cache
      = some ⟨5, 500, effectiveWriteTtl sampleHungState.rules 0 500⟩ := by
  obtain ⟨a, b, c, d, e⟩ :=
    generateTimeout_resolves_with_timeout_error sampleHungState "x"
      ⟨0, [⟨none, some ⟨some 3, false, none⟩⟩, ⟨none, none⟩]⟩ rfl
  exact ⟨a, b, e 5 0 500⟩

/-- C5: on a generator error with `dropOnError` set, `errors` is
incremented, the cached record for the id is dropped (so the id is absent
on the next read), every waiter not already resolved is resolved with the
generator's error, and the GenerationState is destroyed — and a failing
drop changes neither the deliveries nor the statistics nor the
destruction of the GenerationState. -/
theorem generateError_drops_and_resolves {T : Type} (st : PolicyState T)
    (id : String) (g : GenerationState T) (e : Nat)
    (hd : st.rules.dropOnError = true) (h1 : alGet id st.gen = some g) :
    (generateErrorEvent st id e false).2.stats.errors
        = st.stats.errors + 1 ∧
    alGet id (generateErrorEvent st id e false).2.cache = none ∧
    alGet id (generateErrorEvent st id e false).2.gen = none ∧
    alGet id (generateErrorEvent st id e true).2.gen = none ∧
    (generateErrorEvent st id e false).1
      = (g.waiters.filter (fun w => w.resolved.isNone)).map
          (fun _ => ⟨none, false, some (.generateError e)⟩) ∧
    (generateErrorEvent st id e true).1
        = (generateErrorEvent st id e false).1 ∧
    (generateErrorEvent st id e true).2.stats
        = (generateErrorEvent st id e false).2.stats := by
  refine ⟨?_, ?_, ?_, ?_, ?_, ?_, ?_⟩ <;>
    simp [generateErrorEvent, hd, h1, resolveAll, alGet_alRemove_same]

/-- C5 witness: a generator error against the sample waiting state (one
unresolved waiter, a cached record present) bumps `errors` to 1, leaves
the id absent from the cache, destroys the GenerationState, and delivers
the same single generator-error resolution whether or not the drop
fails. -/
theorem generateError_drops_and_resolves_witness :
    (generateErrorEvent sampleWaitingState "x" 42 false).2.stats.errors
        = sampleWaitingState.stats.errors + 1 ∧
    alGet "x" (generateErrorEvent sampleWaitingState "x" 42 false).2.cache
        = none ∧
    alGet "x" (generateErrorEvent sampleWaitingState "x" 42 false).2.gen
        = none ∧
    (generateErrorEvent sampleWaitingState "x" 42 true).1
        = (generateErrorEvent sampleWaitingState "x" 42 false).1 := by
  obtain ⟨a, b, c, d, e, f, g⟩ :=
    generateError_drops_and_resolves sampleWaitingState "x"
      ⟨600, [⟨some ⟨7, 0, 1000⟩, none⟩]⟩ 42 rfl rfl
  exact ⟨a, b, c, f⟩

theorem generatePhase_errors_unchanged {T : Type} (st : PolicyState T)
    (id : String) (now : Int) (fb : Option (StoredRecord T)) (ws : Bool) :
    (generatePhase st id now fb ws).2.stats.errors = st.stats.errors := by
  by_cases h1 : st.rules.generateFunc = false
  · cases fb <;> simp [generatePhase, h1]
  · cases hg : alGet id st.gen with
    | some g => simp [generatePhase, h1, hg]
    | none =>
      by_cases h2 : cooldownActive st.rules st.pending id now
      · cases fb <;> simp [generatePhase, h1, hg, h2]
      · cases ws <;> simp [generatePhase, h1, hg, h2]

theorem generatePhase_blocked {T : Type} (st : PolicyState T)
    (id : String) (now : Int) (fb : Option (StoredRecord T)) (ws : Bool)
    (hgen : alGet id st.gen = none)
    (hcool : cooldownActive st.rules st.pending id now = true) :
    (generatePhase st id now fb ws).2 = st := by
  by_cases h1 : st.rules.generateFunc = false
  · cases fb <;> simp [generatePhase, h1]
  · cases fb <;> simp [generatePhase, h1, hgen, hcool]

/-- C6: a failing cache read always increments `errors`; with
`generateOnReadError = false` and a generator configured the read error is
surfaced immediately and no generation is touched; with
`generateOnReadError = true` the call continues into exactly the same
miss fallthrough (`generatePhase` with no fallback) that a genuine cache
miss runs, on a state differing from the genuine-miss one only by the
`errors` increment. -/
theorem readError_branches {T : Type} (st : PolicyState T) (id : String)
    (now : Int) (hf : st.rules.generateFunc = true) :
    (getStep st id now true).2.stats.errors = st.stats.errors + 1 ∧
    (st.rules.generateOnReadError = false →
      (getStep st id now true).1
          = .resolvedNow ⟨none, false, some .readError⟩ ∧
      (getStep st id now true).2.stats.generates = st.stats.generates ∧
      (getStep st id now true).2.gen = st.gen) ∧
    (st.rules.generateOnReadError = true →
      getStep st id now true
        = generatePhase
            { st with stats := { st.stats with
                gets := st.stats.gets + 1,
                errors := st.stats.errors + 1 } } id now none false ∧
      (alGet id st.cache = none →
        getStep st id now false
          = generatePhase
              { st with stats := { st.stats with
                  gets := st.stats.gets + 1 } } id now none false)) := by
  refine ⟨?_, ?_, ?_⟩
  · by_cases hre : st.rules.generateOnReadError = false
    · simp [getStep, hre, hf]
    · simp [getStep, hre, hf, generatePhase_errors_unchanged]
  · intro hre
    refine ⟨?_, ?_, ?_⟩ <;> simp [getStep, hre, hf]
  · intro hre
    constructor
    · simp [getStep, hre]
    · intro hc
      simp [getStep, hc]

/-- C6 witness: against the sample empty-cache state (where
`generateOnReadError` is true), a failing read increments `errors` and
runs the same miss fallthrough as a genuine miss. -/
theorem readError_branches_witness :
    (getStep sampleEmptyState "x" 0 true).2.stats.errors
        = sampleEmptyState.stats.errors + 1 ∧
    getStep sampleEmptyState "x" 0 true
      = generatePhase
          { sampleEmptyState with stats := { sampleEmptyState.stats with
              gets := sampleEmptyState.stats.gets + 1,
              errors := sampleEmptyState.stats.errors + 1 } } "x" 0 none
          false ∧
    getStep sampleEmptyState "x" 0 false
      = generatePhase
          { sampleEmptyState with stats := { sampleEmptyState.stats with
              gets := sampleEmptyState.stats.gets + 1 } } "x" 0 none
          false := by
  obtain ⟨a, _, c⟩ := readError_branches sampleEmptyState "x" 0 rfl
  obtain ⟨c1, c2⟩ := c rfl
  exact ⟨a, c1, c2 rfl⟩

/-- C9: while the `pendingGenerateTimeout` cool-down marker for an id is
still running — even with the prior GenerationState already destroyed — a
`get` call starts no new generator invocation: `generates` is unchanged
and no GenerationState appears. -/
theorem pendingCooldown_blocks_new_generation {T : Type}
    (st : PolicyState T) (id : String) (now s : Int)
    (h1 : alGet id st.pending = some s) (h2 : alGet id st.gen = none)
    (hp : st.rules.pendingGenerateTimeout ≠ 0)
    (h4 : now < s + st.rules.pendingGenerateTimeout) :
    (getStep st id now false).2.stats.generates = st.stats.generates ∧
    alGet id (getStep st id now false).2.gen = none := by
  have hcool : cooldownActive st.rules st.pending id now = true := by
    simp [cooldownActive, h1, hp, h4]
  cases hc : alGet id st.cache with
  | none =>
    constructor <;> simp [getStep, hc, generatePhase_blocked, h2, hcool]
  | some r =>
    by_cases hexp : recordRemainingTtl r now ≤ 0
    · constructor <;>
        simp [getStep, hc, hexp, generatePhase_blocked, h2, hcool]
    · by_cases hstale : recordIsStale st.rules r now
      · constructor <;>
          simp [getStep, hc, hexp, hstale, generatePhase_blocked, h2, hcool]
      · constructor <;> simp [getStep, hc, hexp, hstale, h2]

/-- A sample policy state with an empty cache, no in-flight generation,
and a cool-down marker for id `x` left at time 0 under
`pendingGenerateTimeout = 400`. -/
def sampleCooldownState : PolicyState Nat :=
  { cache := [], gen := [], pending := [("x", 0)], stats := zeroStats,
    rules := { sampleRulesGen with pendingGenerateTimeout := 400 } }

/-- C9 witness: with a cool-down marker left at time 0 and
`pendingGenerateTimeout = 400`, a `get` at time 300 on an empty cache
with no GenerationState starts no generation. -/
theorem pendingCooldown_blocks_new_generation_witness :
    (getStep sampleCooldownState "x" 300 false).2.stats.generates
        = sampleCooldownState.stats.generates ∧
    alGet "x" (getStep sampleCooldownState "x" 300 false).2.gen = none :=
  pendingCooldown_blocks_new_generation sampleCooldownState "x" 300 0 rfl
    rfl (by decide) (by decide)

/-- The raw policy options as handed to the constructor or to
`Policy.rules` (`Policy.Options` in `policy.d.ts`), before validation.
`expiresAt` carries the parsed `HH:MM` pair. -/
structure PolicyOptions where
  expiresIn : Option Int
  expiresAt : Option (Nat × Nat)
  generateFunc : Bool
  staleIn : Option StaleIn
  staleTimeout : Option Int
  generateTimeout : GenerateTimeoutSetting
  dropOnError : Option Bool
  generateOnReadError : Option Bool
  generateIgnoreWriteError : Option Bool
  pendingGenerateTimeout : Option Int

/-- The configuration-time validation failures. -/
inductive ValidationError where
  | bothExpirationRules
  | staleInNotBelowExpiresIn
  | staleTimeoutNotBelowGenerateTimeout
  | generateTimeoutRequired
deriving DecidableEq, Repr

/-- Options translated into an active rule set, with the documented
defaults (`dropOnError`, `generateOnReadError` and
`generateIgnoreWriteError` default to true, `pendingGenerateTimeout`
to 0). -/
def buildRules (o : PolicyOptions) : PolicyRules :=
  { expiration :=
      match o.expiresIn, o.expiresAt with
      | some d, _ => .relativeIn d
      | none, some hm => .dailyAt (hm.1 * 60 + hm.2)
      | none, none => .unset
    staleIn := o.staleIn
    generateFunc := o.generateFunc
    staleTimeout := o.staleTimeout
    generateTimeout := o.generateTimeout
    dropOnError := o.dropOnError.getD true
    generateOnReadError := o.generateOnReadError.getD true
    generateIgnoreWriteError := o.generateIgnoreWriteError.getD true
    pendingGenerateTimeout := o.pendingGenerateTimeout.getD 0 }

/-- Modelled from the spec: the synchronous rule validation of
`lib/policy.js`, which is not under `src/`. Setting both `expiresIn` and
`expiresAt` is invalid; a statically known `staleIn` must lie below
`expiresIn`; a static `staleTimeout` must lie below a static
`generateTimeout`; `generateTimeout` is required whenever a generator is
configured unless explicitly disabled. -/
def validateRules (o : PolicyOptions) : Except ValidationError PolicyRules :=
  if o.expiresIn.isSome ∧ o.expiresAt.isSome then
    .error .bothExpirationRules
  else if (match o.staleIn, o.expiresIn with
           | some (.fixed si), some d => decide (d ≤ si)
           | _, _ => false) then
    .error .staleInNotBelowExpiresIn
  else if (match o.staleTimeout, o.generateTimeout with
           | some s, .after gms => decide (gms ≤ s)
           | _, _ => false) then
    .error .staleTimeoutNotBelowGenerateTimeout
  else if o.generateFunc ∧ o.generateTimeout = .unset then
    .error .generateTimeoutRequired
  else .ok (buildRules o)

/-- Modelled from the spec: `Policy.rules(options)` of `lib/policy.js`,
which is not under `src/`. Validates the options synchronously; on
success swaps only the active rule set, leaving stored records and all
other bookkeeping untouched. -/
def Policy.rulesUpdate {T : Type} (st : PolicyState T)
    (o : PolicyOptions) : Except ValidationError (PolicyState T) :=
  match validateRules o with
  | .error e => .error e
  | .ok r => .ok { st with rules := r }

/-- Modelled from the spec: the `Policy` constructor of `lib/policy.js`,
which is not under `src/`. Validates the options synchronously and starts
from empty bookkeeping. -/
def Policy.construct (T : Type) (o : PolicyOptions) :
    Except ValidationError (PolicyState T) :=
  match validateRules o with
  | .error e => .error e
  | .ok r =>
      .ok { cache := [], gen := [], pending := [], stats := zeroStats,
            rules := r }

/-- C8: configuring both `expiresIn` and `expiresAt` is rejected
synchronously with a validation error, both at construction and on a
`rules` swap — and a successful `rules` swap leaves the stored records
(and the rest of the bookkeeping) untouched. -/
theorem rules_rejects_both_expirations {T : Type} :
    (∀ (st : PolicyState T) (o : PolicyOptions) (d : Int) (hm : Nat × Nat),
      o.expiresIn = some d → o.expiresAt = some hm →
      Policy.rulesUpdate st o = .error .bothExpirationRules ∧
      Policy.construct T o = .error .bothExpirationRules) ∧
    (∀ (st st' : PolicyState T) (o : PolicyOptions),
      Policy.rulesUpdate st o = .ok st' →
      st'.cache = st.cache ∧ st'.gen = st.gen ∧ st'.pending = st.pending ∧
      st'.stats = st.stats) := by
  constructor
  · intro st o d hm h1 h2
    constructor <;>
      simp [Policy.rulesUpdate, Policy.construct, validateRules, h1, h2]
  · intro st st' o hok
    cases hv : validateRules o with
    | error e => simp [Policy.rulesUpdate, hv] at hok
    | ok r =>
        simp [Policy.rulesUpdate, hv] at hok
        rw [← hok]
        exact ⟨rfl, rfl, rfl, rfl⟩

/-- Options configuring both expiration modes at once. -/
def doubleExpirationOpts : PolicyOptions :=
  { expiresIn := some 1000, expiresAt := some (12, 30),
    generateFunc := false, staleIn := none, staleTimeout := none,
    generateTimeout := .unset, dropOnError := none,
    generateOnReadError := none, generateIgnoreWriteError := none,
    pendingGenerateTimeout := none }

/-- Valid options carrying only `expiresIn`. -/
def validSwapOpts : PolicyOptions :=
  { expiresIn := some 2000, expiresAt := none, generateFunc := false,
    staleIn := none, staleTimeout := none, generateTimeout := .unset,
    dropOnError := none, generateOnReadError := none,
    generateIgnoreWriteError := none, pendingGenerateTimeout := none }

/-- C8 witness: options with both expirations set are rejected at
rule-set time against the sample state and at construction, and a
successful swap to `expiresIn = 2000` leaves the cached records of the
sample state unchanged. -/
theorem rules_rejects_both_expirations_witness :
    (Policy.rulesUpdate sampleStaleState doubleExpirationOpts
        = .error .bothExpirationRules ∧
      Policy.construct Nat doubleExpirationOpts
        = .error .bothExpirationRules) ∧
    { sampleStaleState with
        rules := buildRules validSwapOpts }.cache
      = sampleStaleState.cache := by
  obtain ⟨reject, keep⟩ := rules_rejects_both_expirations (T := Nat)
  refine ⟨reject sampleStaleState doubleExpirationOpts 1000 (12, 30) rfl
    rfl, ?_⟩
  exact (keep sampleStaleState
    { sampleStaleState with rules := buildRules validSwapOpts }
    validSwapOpts rfl).1

/-- The client-level failures: every operation other than `start` errors
when the connection has not been started; `get`/`set`/`drop` can also
surface an engine failure. -/
inductive ClientError where
  | notStarted
  | engineFailure
deriving DecidableEq, Repr

/-- The client state: whether `start` has completed successfully, and the
backend store contents (keyed by full cache key). -/
structure ClientState (T : Type) where
  started : Bool
  store : List (CacheKey × StoredRecord T)

/-- Modelled from the spec: `Client.start` of `lib/client.js`, which is
not under `src/` (only `client.d.ts` is) — creates the connection; after
it completes successfully every other method is available. -/
def Client.start {T : Type} (c : ClientState T) : ClientState T :=
  { c with started := true }

/-- Modelled from the spec: `Client.stop` of `lib/client.js`, which is
not under `src/` — terminates the connection; unavailable before
`start`. -/
def Client.stop {T : Type} (c : ClientState T) :
    Except ClientError (ClientState T) :=
  if c.started then .ok { c with started := false } else .error .notStarted

/-- Modelled from the spec: `Client.isReady` of `lib/client.js`, which is
not under `src/` — reports engine readiness; unavailable before
`start`. -/
def Client.isReady {T : Type} (c : ClientState T) :
    Except ClientError Bool :=
  if c.started then .ok true else .error .notStarted

/-- Modelled from the spec: `Client.validateSegmentName` of
`lib/client.js`, which is not under `src/` — returns whether a segment
name is acceptable (here: nonempty); unavailable before `start`. -/
def Client.validateSegmentName {T : Type} (c : ClientState T)
    (name : String) : Except ClientError Bool :=
  if c.started then .ok (name ≠ "") else .error .notStarted

/-- Modelled from the spec: `Client.get` of `lib/client.js`, which is not
under `src/` — reads a record from the backend store; unavailable before
`start`. -/
def Client.get {T : Type} (c : ClientState T) (k : CacheKey) :
    Except ClientError (Option (StoredRecord T)) :=
  if c.started then .ok (alGet k c.store) else .error .notStarted

/-- Modelled from the spec: `Client.set` of `lib/client.js`, which is not
under `src/` — stores a record; unavailable before `start`. -/
def Client.set {T : Type} (c : ClientState T) (k : CacheKey) (v : T)
    (ttl now : Int) : Except ClientError (ClientState T) :=
  if c.started then .ok { c with store := alSet k ⟨v, now, ttl⟩ c.store }
  else .error .notStarted

/-- Modelled from the spec: `Client.drop` of `lib/client.js`, which is
not under `src/` — removes a record; unavailable before `start`. -/
def Client.drop {T : Type} (c : ClientState T) (k : CacheKey) :
    Except ClientError (ClientState T) :=
  if c.started then .ok { c with store := alRemove k c.store }
  else .error .notStarted

/-- C10: `Client.start` leaves the client started, and once a client is
started no other operation — `stop`, `isReady`, `validateSegmentName`,
`get`, `set`, `drop` — can take its not-started error branch. -/
theorem client_operations_after_start {T : Type} (c : ClientState T)
    (k : CacheKey) (v : T) (ttl now : Int) (name : String)
    (h : c.started = true) :
    (Client.start c).started = true ∧
    Client.stop c ≠ .error .notStarted ∧
    Client.isReady c ≠ .error .notStarted ∧
    Client.validateSegmentName c name ≠ .error .notStarted ∧
    Client.get c k ≠ .error .notStarted ∧
    Client.set c k v ttl now ≠ .error .notStarted ∧
    Client.drop c k ≠ .error .notStarted := by
  refine ⟨rfl, ?_, ?_, ?_, ?_, ?_, ?_⟩ <;>
    simp [Client.stop, Client.isReady, Client.validateSegmentName,
      Client.get, Client.set, Client.drop, h]

/-- C10 witness: a freshly started empty client rejects none of its
operations with the not-started error. -/
theorem client_operations_after_start_witness :
    Client.stop (Client.start (⟨false, []⟩ : ClientState Nat))
        ≠ .error .notStarted ∧
    Client.get (Client.start (⟨false, []⟩ : ClientState Nat)) ⟨"s", "x"⟩
        ≠ .error .notStarted := by
  obtain ⟨_, b, _, _, e, _, _⟩ :=
    client_operations_after_start
      (Client.start (⟨false, []⟩ : ClientState Nat)) ⟨"s", "x"⟩ 5 100 0
      "s" rfl
  exact ⟨b, e⟩

end Catbox
